import Mathlib

/-!
Shallow embedding of the targeting engine of `AutomaticPlayer` (src/player.py).

Python values that can flow through the engine are modelled by `PyVal`:
the engine stores coordinate pairs, but the degenerate branches of
`choose_around_cell` and `check_left`/`check_right`/`check_above`/`check_below`
can also produce Python `None` and `False`, which are then recorded in the
tracker and in `last_hit` exactly as the source does.  Operations that would
raise a Python exception (subscripting `None`/`False`, unpacking a non-pair)
return `Option.none`.  The random source `random.randint` is modelled by an
explicit stream of natural-number pairs reduced into the grid range, and the
resample-until-valid loop of `choose_randomly` by explicit fuel.
-/

/-- A grid cell: an integer coordinate pair, 1-indexed. -/
abbrev Cell := Int × Int

/-- A Python value stored by the engine: a cell, `None`, or `False`. -/
inductive PyVal where
  | cell (c : Cell)
  | noneV
  | falseV
deriving DecidableEq, Repr

/-- x-coordinate of a stored value, when it is a cell (`v[0]` in Python). -/
def PyVal.getX : PyVal → Option Int
  | PyVal.cell c => some c.1
  | _ => none

/-- y-coordinate of a stored value, when it is a cell (`v[1]` in Python). -/
def PyVal.getY : PyVal → Option Int
  | PyVal.cell c => some c.2
  | _ => none

/-- Ship direction: the Python strings `'v'` and `'h'`. -/
inductive ShipDir where
  | v
  | h
deriving DecidableEq, Repr

/-- The `current_ship_info` dictionary of `AutomaticPlayer`. -/
structure ShipInfo where
  active : Bool
  start : PyVal
  «end» : PyVal
  direction : Option ShipDir
  length : Nat
  hits : List PyVal
  start_found : Bool
  end_found : Bool
deriving DecidableEq, Repr

/-- The mutable state of an `AutomaticPlayer`: grid size from its board,
`tracker`, `dont_choose`, `last_hit` and `current_ship_info`. -/
structure PlayerState where
  width : Int
  height : Int
  tracker : Finset PyVal
  dont_choose : Finset PyVal
  last_hit : PyVal
  ship : ShipInfo
deriving DecidableEq

/-- The state built by `AutomaticPlayer.__init__` on a `width` by `height` board. -/
def initial_state (w h : Int) : PlayerState :=
  { width := w
    height := h
    tracker := ∅
    dont_choose := ∅
    last_hit := PyVal.noneV
    ship :=
      { active := false
        start := PyVal.noneV
        «end» := PyVal.noneV
        direction := none
        length := 0
        hits := []
        start_found := false
        end_found := false } }

/-- `AutomaticPlayer.in_bounds`. -/
def in_bounds (st : PlayerState) (c : Cell) : Bool :=
  decide (1 ≤ c.1 ∧ c.1 ≤ st.width ∧ 1 ≤ c.2 ∧ c.2 ≤ st.height)

/-- A cell that may be probed: in bounds, not yet attempted, not excluded.
This is the condition each `check_` helper and `choose_around_cell` test. -/
def legal (st : PlayerState) (c : Cell) : Bool :=
  in_bounds st c && !decide (PyVal.cell c ∈ st.tracker)
    && !decide (PyVal.cell c ∈ st.dont_choose)

/-- `AutomaticPlayer.get_random_coordinates` equivalent inside
`choose_randomly`: `random.randint(1, width)` and `random.randint(1, height)`,
with the randomness supplied as a pair of naturals reduced into range. -/
def get_random_coordinates (st : PlayerState) (r : Nat × Nat) : Cell :=
  (1 + (r.1 : Int) % st.width, 1 + (r.2 : Int) % st.height)

/-- `AutomaticPlayer.choose_randomly`: draw from the stream `rs` starting at
index `i`, resampling while the candidate is tracked or excluded.  `fuel`
bounds the loop; `none` models non-termination of the Python `while`. -/
def choose_randomly (st : PlayerState) (rs : Nat → Nat × Nat) :
    Nat → Nat → Option Cell
  | 0, _ => none
  | Nat.succ fuel, i =>
      let c := get_random_coordinates st (rs i)
      if PyVal.cell c ∈ st.tracker ∨ PyVal.cell c ∈ st.dont_choose then
        choose_randomly st rs fuel (i + 1)
      else
        some c

/-- `AutomaticPlayer.check_above`: probe just above `start`; `False` if the
probe is out of bounds, tracked or excluded.  Crashes (`none`) when `start`
is not a pair. -/
def check_above (st : PlayerState) : Option PyVal :=
  match st.ship.start with
  | PyVal.cell s =>
      let c : Cell := (s.1, s.2 - 1)
      if !(in_bounds st c) || decide (PyVal.cell c ∈ st.tracker)
          || decide (PyVal.cell c ∈ st.dont_choose) then
        some PyVal.falseV
      else
        some (PyVal.cell c)
  | _ => none

/-- `AutomaticPlayer.check_below`: probe just below `end`. -/
def check_below (st : PlayerState) : Option PyVal :=
  match st.ship.«end» with
  | PyVal.cell e =>
      let c : Cell := (e.1, e.2 + 1)
      if !(in_bounds st c) || decide (PyVal.cell c ∈ st.tracker)
          || decide (PyVal.cell c ∈ st.dont_choose) then
        some PyVal.falseV
      else
        some (PyVal.cell c)
  | _ => none

/-- `AutomaticPlayer.check_left`: probe just left of `start`. -/
def check_left (st : PlayerState) : Option PyVal :=
  match st.ship.start with
  | PyVal.cell s =>
      let c : Cell := (s.1 - 1, s.2)
      if !(in_bounds st c) || decide (PyVal.cell c ∈ st.tracker)
          || decide (PyVal.cell c ∈ st.dont_choose) then
        some PyVal.falseV
      else
        some (PyVal.cell c)
  | _ => none

/-- `AutomaticPlayer.check_right`: probe just right of `end`. -/
def check_right (st : PlayerState) : Option PyVal :=
  match st.ship.«end» with
  | PyVal.cell e =>
      let c : Cell := (e.1 + 1, e.2)
      if !(in_bounds st c) || decide (PyVal.cell c ∈ st.tracker)
          || decide (PyVal.cell c ∈ st.dont_choose) then
        some PyVal.falseV
      else
        some (PyVal.cell c)
  | _ => none

/-- `AutomaticPlayer.choose_around_cell`: first orthogonal neighbour of
`start`, in the order left, up, right, down, that is in bounds, untracked and
unexcluded; Python returns `None` when no neighbour qualifies.  Unpacking a
non-pair `start` crashes. -/
def choose_around_cell (st : PlayerState) : Option PyVal :=
  match st.ship.start with
  | PyVal.cell s =>
      match ([(-1, 0), (0, -1), (1, 0), (0, 1)] : List (Int × Int)).find?
          (fun d => legal st (s.1 + d.1, s.2 + d.2)) with
      | some d => some (PyVal.cell (s.1 + d.1, s.2 + d.2))
      | none => some PyVal.noneV
  | _ => none

/-- `AutomaticPlayer.initialise_ship`. -/
def initialise_ship (si : ShipInfo) (cv : PyVal) : ShipInfo :=
  { si with
      active := true
      start := cv
      «end» := cv
      hits := si.hits ++ [cv] }

/-- `AutomaticPlayer.update_current_ship`: append the hit, infer the
direction when it is still unknown, then extend `start` or `end`.  The
extension block of the source always runs and compares with `<` against
`start`; when the direction is unknown and the appended hit is the only one,
the source first sets both extremities to the hit, so the extension
re-assigns `end` to that same cell.  Subscripting a non-pair value crashes
(`none`). -/
def update_current_ship (si : ShipInfo) (cv : PyVal) : Option ShipInfo :=
  let hits2 := si.hits ++ [cv]
  match si.direction with
  | some ShipDir.v =>
      match cv, si.start with
      | PyVal.cell c, PyVal.cell s =>
          if c.2 < s.2 then
            some { si with hits := hits2, start := cv }
          else
            some { si with hits := hits2, «end» := cv }
      | _, _ => none
  | some ShipDir.h =>
      match cv, si.start with
      | PyVal.cell c, PyVal.cell s =>
          if c.1 < s.1 then
            some { si with hits := hits2, start := cv }
          else
            some { si with hits := hits2, «end» := cv }
      | _, _ => none
  | none =>
      if hits2.length = 1 then
        match cv with
        | PyVal.cell _ =>
            some { si with hits := hits2, start := cv, «end» := cv }
        | _ => none
      else
        match cv, si.start with
        | PyVal.cell c, PyVal.cell s =>
            let d : Option ShipDir :=
              if c.1 = s.1 then some ShipDir.v
              else if c.2 = s.2 then some ShipDir.h
              else none
            match d with
            | some ShipDir.v =>
                if c.2 < s.2 then
                  some { si with hits := hits2, direction := d, start := cv }
                else
                  some { si with hits := hits2, direction := d, «end» := cv }
            | _ =>
                if c.1 < s.1 then
                  some { si with hits := hits2, direction := d, start := cv }
                else
                  some { si with hits := hits2, direction := d, «end» := cv }
        | _, _ => none

/-- `AutomaticPlayer.dont_hit_nearby_cells`: add to `dont_choose` every cell
of the bounding rectangle `start.x-1 .. end.x+1` times `start.y-1 .. end.y+1`
(the two Python `range` loops). -/
def dont_hit_nearby_cells (si : ShipInfo) (dont : Finset PyVal) :
    Option (Finset PyVal) :=
  match si.start, si.«end» with
  | PyVal.cell s, PyVal.cell e =>
      some (dont ∪
        (Finset.Icc (s.1 - 1) (e.1 + 1) ×ˢ Finset.Icc (s.2 - 1) (e.2 + 1)).image
          PyVal.cell)
  | _, _ => none

/-- `AutomaticPlayer.reset_current_ship`. -/
def reset_current_ship : ShipInfo :=
  { active := false
    start := PyVal.noneV
    «end» := PyVal.noneV
    direction := none
    length := 0
    hits := []
    start_found := false
    end_found := false }

/-- `AutomaticPlayer.found_end`: on a miss with a known direction, mark the
extremity the miss lies strictly beyond. -/
def found_end (si : ShipInfo) (cv : PyVal) : Option ShipInfo :=
  match si.direction with
  | some ShipDir.v =>
      match cv, si.start with
      | PyVal.cell c, PyVal.cell s =>
          if c.2 < s.2 then
            some { si with start_found := true }
          else
            match si.«end» with
            | PyVal.cell e =>
                if e.2 < c.2 then some { si with end_found := true } else some si
            | _ => none
      | _, _ => none
  | some ShipDir.h =>
      match cv, si.start with
      | PyVal.cell c, PyVal.cell s =>
          if c.1 < s.1 then
            some { si with start_found := true }
          else
            match si.«end» with
            | PyVal.cell e =>
                if e.1 < c.1 then some { si with end_found := true } else some si
            | _ => none
      | _, _ => none
  | none => some si

/-- `AutomaticPlayer.receive_result`. -/
def receive_result (st : PlayerState) (is_ship_hit has_ship_sunk : Bool) :
    Option PlayerState :=
  if has_ship_sunk then
    match update_current_ship st.ship st.last_hit with
    | some si =>
        match dont_hit_nearby_cells si st.dont_choose with
        | some dont =>
            some { st with ship := reset_current_ship, dont_choose := dont }
        | none => none
    | none => none
  else if is_ship_hit then
    if st.ship.active = false then
      some { st with ship := initialise_ship st.ship st.last_hit }
    else
      match update_current_ship st.ship st.last_hit with
      | some si => some { st with ship := si }
      | none => none
  else
    if st.ship.active = true then
      if st.ship.direction = none then
        some { st with tracker := insert st.last_hit st.tracker }
      else
        match found_end st.ship st.last_hit with
        | some si => some { st with ship := si }
        | none => none
    else
      some { st with tracker := insert st.last_hit st.tracker }

/-- The probe-selection logic of `AutomaticPlayer.select_target` (the value
the source binds to `cell`).  The source line
`self.current_ship_info['start_found'] == True` (and its vertical twin)
evaluates a comparison and discards the result, so it appears here as no
state change between the failed start probe and the end probe. -/
def select_value (st : PlayerState) (rs : Nat → Nat × Nat) (fuel i : Nat) :
    Option PyVal :=
  if st.ship.active = false then
    (choose_randomly st rs fuel i).map PyVal.cell
  else
    match st.ship.direction with
    | none => choose_around_cell st
    | some ShipDir.h =>
        if st.ship.start_found = false then
          match check_left st with
          | some c => if c = PyVal.falseV then check_right st else some c
          | none => none
        else
          check_right st
    | some ShipDir.v =>
        if st.ship.start_found = false then
          match check_above st with
          | some c => if c = PyVal.falseV then check_below st else some c
          | none => none
        else
          check_below st

/-- `AutomaticPlayer.select_target`: compute the probe of `select_value`,
record it in the tracker and in `last_hit`, and return it. -/
def select_target (st : PlayerState) (rs : Nat → Nat × Nat) (fuel i : Nat) :
    Option (PyVal × PlayerState) :=
  match select_value st rs fuel i with
  | some cv =>
      some (cv, { st with tracker := insert cv st.tracker, last_hit := cv })
  | none => none

/-- One harness turn: the randomness and fuel handed to `select_target`,
then the reported outcome handed to `receive_result`. -/
structure Turn where
  rs : Nat → Nat × Nat
  fuel : Nat
  is_hit : Bool
  has_sunk : Bool

/-- Run one turn: `select_target` then `receive_result`. -/
def run_turn (st : PlayerState) (t : Turn) : Option PlayerState :=
  match select_target st t.rs t.fuel 0 with
  | some p => receive_result p.2 t.is_hit t.has_sunk
  | none => none

/-- Run a sequence of alternating `select_target` / `receive_result` calls. -/
def run_game (st : PlayerState) : List Turn → Option PlayerState
  | [] => some st
  | t :: ts =>
      match run_turn st t with
      | some st1 => run_game st1 ts
      | none => none

/-- A constant random stream. -/
def rsOf (a b : Nat) : Nat → Nat × Nat := fun _ => (a, b)

/-! ## Helper lemmas -/

theorem select_target_inactive (st : PlayerState) (h : st.ship.active = false)
    (rs : Nat → Nat × Nat) (fuel i : Nat) :
    select_target st rs fuel i =
      (choose_randomly st rs fuel i).map fun c =>
        (PyVal.cell c,
         { st with
            tracker := insert (PyVal.cell c) st.tracker
            last_hit := PyVal.cell c }) := by
  cases hc : choose_randomly st rs fuel i <;>
    simp [select_target, select_value, h, hc]

theorem exclusion_rect_mem (dont : Finset PyVal) (x1 x2 y1 y2 : Int) (p : Cell) :
    PyVal.cell p ∈ dont ∪
        (Finset.Icc (x1 - 1) (x2 + 1) ×ˢ Finset.Icc (y1 - 1) (y2 + 1)).image
          PyVal.cell ↔
      PyVal.cell p ∈ dont ∨
        (x1 - 1 ≤ p.1 ∧ p.1 ≤ x2 + 1 ∧ y1 - 1 ≤ p.2 ∧ p.2 ≤ y2 + 1) := by
  simp only [Finset.mem_union, Finset.mem_image, Finset.mem_product,
    Finset.mem_Icc, PyVal.cell.injEq]
  constructor
  · rintro (hmem | ⟨a, ⟨⟨h1, h2⟩, h3, h4⟩, rfl⟩)
    · exact Or.inl hmem
    · exact Or.inr ⟨h1, h2, h3, h4⟩
  · rintro (hmem | ⟨h1, h2, h3, h4⟩)
    · exact Or.inl hmem
    · exact Or.inr ⟨p, ⟨⟨h1, h2⟩, h3, h4⟩, rfl⟩

/-! ## Claim C2 -/

/-- Claim C2: with a pursuit active, reporting `has_sunk = true` first folds
`last_target` into the extremities exactly as a normal hit would (the very
call to `update_current_ship`), then adds to the excluded set exactly the
cells of the bounding rectangle `start.x-1 .. end.x+1` times
`start.y-1 .. end.y+1` of the folded pursuit, out-of-bounds coordinates
included, and resets the pursuit to inactive/empty. -/
theorem sink_builds_exclusion_zone
    (st : PlayerState) (ih : Bool) (si2 : ShipInfo) (x1 y1 x2 y2 : Int)
    (hact : st.ship.active = true)
    (hupd : update_current_ship st.ship st.last_hit = some si2)
    (hs2 : si2.start = PyVal.cell (x1, y1))
    (he2 : si2.«end» = PyVal.cell (x2, y2)) :
    receive_result st ih true =
      some { st with
        ship := reset_current_ship
        dont_choose := st.dont_choose ∪
          (Finset.Icc (x1 - 1) (x2 + 1) ×ˢ Finset.Icc (y1 - 1) (y2 + 1)).image
            PyVal.cell } ∧
    (∀ p : Cell,
      PyVal.cell p ∈ st.dont_choose ∪
          (Finset.Icc (x1 - 1) (x2 + 1) ×ˢ Finset.Icc (y1 - 1) (y2 + 1)).image
            PyVal.cell ↔
        PyVal.cell p ∈ st.dont_choose ∨
          (x1 - 1 ≤ p.1 ∧ p.1 ≤ x2 + 1 ∧ y1 - 1 ≤ p.2 ∧ p.2 ≤ y2 + 1)) ∧
    reset_current_ship.active = false ∧ reset_current_ship.hits = [] := by
  refine ⟨?_, fun p => exclusion_rect_mem _ _ _ _ _ _, rfl, rfl⟩
  simp [receive_result, hupd, dont_hit_nearby_cells, hs2, he2, PyVal.getX,
    PyVal.getY]

/-- The state of claim C2's concrete scenario: pursuit `start = (3,3)`,
`end = (3,5)`, vertical, on a 10 by 10 grid, excluded set empty, the sinking
shot `(3,5)` as last target. -/
def stW2 : PlayerState :=
  { width := 10
    height := 10
    tracker := {PyVal.cell (3, 3), PyVal.cell (3, 4), PyVal.cell (3, 5)}
    dont_choose := ∅
    last_hit := PyVal.cell (3, 5)
    ship :=
      { active := true
        start := PyVal.cell (3, 3)
        «end» := PyVal.cell (3, 5)
        direction := some ShipDir.v
        length := 0
        hits := [PyVal.cell (3, 3), PyVal.cell (3, 4)]
        start_found := false
        end_found := false } }

/-- Claim C2, concrete instance: after the sink the excluded set is exactly
the rectangle of cells from `(2,2)` to `(4,6)`. -/
theorem sink_builds_exclusion_zone_witness :
    receive_result stW2 true true =
      some { stW2 with
        ship := reset_current_ship
        dont_choose := stW2.dont_choose ∪
          (Finset.Icc (3 - 1 : Int) (3 + 1) ×ˢ
            Finset.Icc (3 - 1 : Int) (5 + 1)).image PyVal.cell } ∧
    stW2.dont_choose ∪
        (Finset.Icc (3 - 1 : Int) (3 + 1) ×ˢ
          Finset.Icc (3 - 1 : Int) (5 + 1)).image PyVal.cell =
      (Finset.Icc (2 : Int) 4 ×ˢ Finset.Icc (2 : Int) 6).image PyVal.cell :=
  ⟨(sink_builds_exclusion_zone stW2 true
      { active := true
        start := PyVal.cell (3, 3)
        «end» := PyVal.cell (3, 5)
        direction := some ShipDir.v
        length := 0
        hits := [PyVal.cell (3, 3), PyVal.cell (3, 4), PyVal.cell (3, 5)]
        start_found := false
        end_found := false }
      3 3 3 5 rfl (by decide) rfl rfl).1,
   by decide⟩

/-! ## Claim C10 -/

/-- Claim C10: reporting `has_sunk = true` when no pursuit is active does not
fail: it adds exactly the 3 by 3 block centred on `last_target` to the
excluded set, leaves the pursuit inactive with empty hits, and the next
`select_target` call takes the random branch. -/
theorem sink_without_pursuit
    (st : PlayerState) (c : Cell) (ih : Bool)
    (ha : st.ship.active = false)
    (hd : st.ship.direction = none)
    (hh : st.ship.hits = [])
    (hlast : st.last_hit = PyVal.cell c) :
    receive_result st ih true =
      some { st with
        ship := reset_current_ship
        dont_choose := st.dont_choose ∪
          (Finset.Icc (c.1 - 1) (c.1 + 1) ×ˢ Finset.Icc (c.2 - 1) (c.2 + 1)).image
            PyVal.cell } ∧
    (∀ p : Cell,
      PyVal.cell p ∈ st.dont_choose ∪
          (Finset.Icc (c.1 - 1) (c.1 + 1) ×ˢ Finset.Icc (c.2 - 1) (c.2 + 1)).image
            PyVal.cell ↔
        PyVal.cell p ∈ st.dont_choose ∨
          (c.1 - 1 ≤ p.1 ∧ p.1 ≤ c.1 + 1 ∧ c.2 - 1 ≤ p.2 ∧ p.2 ≤ c.2 + 1)) ∧
    reset_current_ship.active = false ∧ reset_current_ship.hits = [] ∧
    (∀ rs fuel i,
      select_target
          { st with
            ship := reset_current_ship
            dont_choose := st.dont_choose ∪
              (Finset.Icc (c.1 - 1) (c.1 + 1) ×ˢ
                Finset.Icc (c.2 - 1) (c.2 + 1)).image PyVal.cell }
          rs fuel i =
        (choose_randomly
            { st with
              ship := reset_current_ship
              dont_choose := st.dont_choose ∪
                (Finset.Icc (c.1 - 1) (c.1 + 1) ×ˢ
                  Finset.Icc (c.2 - 1) (c.2 + 1)).image PyVal.cell }
            rs fuel i).map fun cc =>
          (PyVal.cell cc,
           { st with
              ship := reset_current_ship
              dont_choose := st.dont_choose ∪
                (Finset.Icc (c.1 - 1) (c.1 + 1) ×ˢ
                  Finset.Icc (c.2 - 1) (c.2 + 1)).image PyVal.cell
              tracker := insert (PyVal.cell cc) st.tracker
              last_hit := PyVal.cell cc })) := by
  refine ⟨?_, fun p => exclusion_rect_mem _ _ _ _ _ _, rfl, rfl,
    fun rs fuel i => ?_⟩
  · simp [receive_result, update_current_ship, hd, hh, hlast,
      dont_hit_nearby_cells, PyVal.getX, PyVal.getY]
  · exact select_target_inactive _ rfl rs fuel i

/-- The state of claim C10's scenario: no pursuit active, the very first hit
on a ship at `(5,5)` reported as a sink. -/
def stW10 : PlayerState :=
  { width := 10
    height := 10
    tracker := {PyVal.cell (5, 5)}
    dont_choose := ∅
    last_hit := PyVal.cell (5, 5)
    ship :=
      { active := false
        start := PyVal.noneV
        «end» := PyVal.noneV
        direction := none
        length := 0
        hits := []
        start_found := false
        end_found := false } }

/-- Claim C10, concrete instance at `(5,5)`. -/
theorem sink_without_pursuit_witness :
    receive_result stW10 true true =
      some { stW10 with
        ship := reset_current_ship
        dont_choose := stW10.dont_choose ∪
          (Finset.Icc ((5 : Int) - 1) ((5 : Int) + 1) ×ˢ
            Finset.Icc ((5 : Int) - 1) ((5 : Int) + 1)).image PyVal.cell } := by
  exact (sink_without_pursuit stW10 (5, 5) true rfl rfl rfl rfl).1

/-! ## Claim C5 -/

/-- Claim C5: for an active pursuit with direction unknown, a hit that is not
a sink appends the hit cell to `hits`; direction becomes vertical when the
cell shares the start's x-coordinate and horizontal when it shares only the
y-coordinate; and along the newly known axis the cell with the smaller
coordinate becomes `start` and the larger becomes `end`. -/
theorem hit_extends_pursuit
    (st : PlayerState) (s c : Cell) (l : List PyVal)
    (ha : st.ship.active = true)
    (hd : st.ship.direction = none)
    (hs : st.ship.start = PyVal.cell s)
    (he : st.ship.«end» = PyVal.cell s)
    (hh : st.ship.hits = l)
    (hne : l ≠ [])
    (hlast : st.last_hit = PyVal.cell c) :
    (receive_result st true false).map (fun s2 => s2.ship.hits) =
      some (l ++ [PyVal.cell c]) ∧
    (c.1 = s.1 →
      (receive_result st true false).map
          (fun s2 => (s2.ship.direction, s2.ship.start, s2.ship.«end»)) =
        some (some ShipDir.v,
          PyVal.cell (if c.2 < s.2 then c else s),
          PyVal.cell (if c.2 < s.2 then s else c))) ∧
    (c.1 ≠ s.1 → c.2 = s.2 →
      (receive_result st true false).map
          (fun s2 => (s2.ship.direction, s2.ship.start, s2.ship.«end»)) =
        some (some ShipDir.h,
          PyVal.cell (if c.1 < s.1 then c else s),
          PyVal.cell (if c.1 < s.1 then s else c))) := by
  have hlen : ((l ++ [PyVal.cell c]).length = 1) = False := by
    have h0 : l.length ≠ 0 := fun h0 => hne (List.length_eq_zero.mp h0)
    simp only [List.length_append, List.length_cons, List.length_nil,
      eq_iff_iff, iff_false]
    omega
  have hrec : receive_result st true false =
      (update_current_ship st.ship (PyVal.cell c)).map fun si =>
        { st with ship := si } := by
    cases hu : update_current_ship st.ship (PyVal.cell c) <;>
      simp [receive_result, ha, hlast, hu]
  refine ⟨?_, fun h1 => ?_, fun h1 h2 => ?_⟩
  · by_cases h1 : c.1 = s.1
    · by_cases hc : c.2 < s.2 <;>
        simp [hrec, update_current_ship, hd, hs, he, hh, hne, h1, hc,
          PyVal.getX, PyVal.getY]
    · by_cases h2 : c.2 = s.2
      · by_cases hc : c.1 < s.1 <;>
          simp [hrec, update_current_ship, hd, hs, he, hh, hne, h1, h2, hc,
            PyVal.getX, PyVal.getY]
      · by_cases hc : c.1 < s.1 <;>
          simp [hrec, update_current_ship, hd, hs, he, hh, hne, h1, h2, hc,
            PyVal.getX, PyVal.getY]
  · by_cases hc : c.2 < s.2 <;>
      simp [hrec, update_current_ship, hd, hs, he, hh, hne, h1, hc,
        PyVal.getX, PyVal.getY]
  · by_cases hc : c.1 < s.1 <;>
      simp [hrec, update_current_ship, hd, hs, he, hh, hne, h1, h2, hc,
        PyVal.getX, PyVal.getY]

/-- The state of claim C5's concrete scenario: first hit at `(4,4)`, second
hit at `(4,6)` being reported. -/
def stW5 : PlayerState :=
  { width := 10
    height := 10
    tracker := {PyVal.cell (4, 4), PyVal.cell (4, 6)}
    dont_choose := ∅
    last_hit := PyVal.cell (4, 6)
    ship :=
      { active := true
        start := PyVal.cell (4, 4)
        «end» := PyVal.cell (4, 4)
        direction := none
        length := 0
        hits := [PyVal.cell (4, 4)]
        start_found := false
        end_found := false } }

/-- Claim C5, concrete instance: first hit `(4,4)`, second hit `(4,6)` gives
direction vertical, `start = (4,4)`, `end = (4,6)`. -/
theorem hit_extends_pursuit_witness :
    (receive_result stW5 true false).map
        (fun s2 => (s2.ship.direction, s2.ship.start, s2.ship.«end»)) =
      some (some ShipDir.v, PyVal.cell (4, 4), PyVal.cell (4, 6)) := by
  exact (hit_extends_pursuit stW5 (4, 4) (4, 6) [PyVal.cell (4, 4)]
    rfl rfl rfl rfl rfl (by decide) rfl).2.1 rfl

/-! ## Claim C9 -/

/-- Claim C9: a miss report changes nothing but the attempted set when no
pursuit is active or the direction is unknown; with a known direction it only
marks `start_found` when the missed cell lies strictly beyond `start` along
the axis and `end_found` when it lies strictly beyond `end`, and changes
nothing else. -/
theorem miss_frame (st : PlayerState) :
    (st.ship.active = false →
       receive_result st false false =
         some { st with tracker := insert st.last_hit st.tracker }) ∧
    (st.ship.active = true → st.ship.direction = none →
       receive_result st false false =
         some { st with tracker := insert st.last_hit st.tracker }) ∧
    (∀ s e c : Cell, st.ship.active = true →
       st.ship.start = PyVal.cell s → st.ship.«end» = PyVal.cell e →
       st.last_hit = PyVal.cell c →
       (st.ship.direction = some ShipDir.v → s.2 ≤ e.2 →
          receive_result st false false =
            some { st with ship := { st.ship with
              start_found := st.ship.start_found || decide (c.2 < s.2)
              end_found := st.ship.end_found || decide (e.2 < c.2) } }) ∧
       (st.ship.direction = some ShipDir.h → s.1 ≤ e.1 →
          receive_result st false false =
            some { st with ship := { st.ship with
              start_found := st.ship.start_found || decide (c.1 < s.1)
              end_found := st.ship.end_found || decide (e.1 < c.1) } })) := by
  refine ⟨fun ha => ?_, fun ha hd => ?_,
    fun s e c ha hs he hlast => ⟨fun hd hle => ?_, fun hd hle => ?_⟩⟩
  · simp [receive_result, ha]
  · simp [receive_result, ha, hd]
  · by_cases h1 : c.2 < s.2
    · have h2 : ¬e.2 < c.2 := by omega
      simp [receive_result, ha, hd, found_end, hs, he, hlast,
        PyVal.getX, PyVal.getY, h1, h2]
    · by_cases h2 : e.2 < c.2
      · simp [receive_result, ha, hd, found_end, hs, he, hlast,
          PyVal.getX, PyVal.getY, h1, h2]
      · simp [receive_result, ha, hd, found_end, hs, he, hlast,
          PyVal.getX, PyVal.getY, h1, h2]
        rw [← hs, ← he, ← hd, ← ha]
  · by_cases h1 : c.1 < s.1
    · have h2 : ¬e.1 < c.1 := by omega
      simp [receive_result, ha, hd, found_end, hs, he, hlast,
        PyVal.getX, PyVal.getY, h1, h2]
    · by_cases h2 : e.1 < c.1
      · simp [receive_result, ha, hd, found_end, hs, he, hlast,
          PyVal.getX, PyVal.getY, h1, h2]
      · simp [receive_result, ha, hd, found_end, hs, he, hlast,
          PyVal.getX, PyVal.getY, h1, h2]
        rw [← hs, ← he, ← hd, ← ha]

/-- The state of claim C9's concrete scenario: vertical pursuit from `(3,3)`
to `(3,5)`, miss reported at `(3,6)` just beyond `end`. -/
def stW9 : PlayerState :=
  { width := 10
    height := 10
    tracker := {PyVal.cell (3, 3), PyVal.cell (3, 4), PyVal.cell (3, 5),
      PyVal.cell (3, 6)}
    dont_choose := ∅
    last_hit := PyVal.cell (3, 6)
    ship :=
      { active := true
        start := PyVal.cell (3, 3)
        «end» := PyVal.cell (3, 5)
        direction := some ShipDir.v
        length := 0
        hits := [PyVal.cell (3, 3), PyVal.cell (3, 4), PyVal.cell (3, 5)]
        start_found := false
        end_found := false } }

/-- Claim C9, concrete instance: a miss at `(3,6)` beyond `end = (3,5)` of a
vertical pursuit marks `end_found` and changes nothing else. -/
theorem miss_frame_witness :
    receive_result stW9 false false =
      some { stW9 with ship := { stW9.ship with
        start_found := stW9.ship.start_found ||
          decide (((3, 6) : Cell).2 < ((3, 3) : Cell).2)
        end_found := stW9.ship.end_found ||
          decide (((3, 5) : Cell).2 < ((3, 6) : Cell).2) } } := by
  exact ((miss_frame stW9).2.2 (3, 3) (3, 5) (3, 6) rfl rfl rfl rfl).1 rfl
    (by decide)

/-! ## Claim C6 -/

theorem check_left_char (st : PlayerState) (s : Cell)
    (hs : st.ship.start = PyVal.cell s) :
    check_left st =
      some (if legal st (s.1 - 1, s.2) = true then PyVal.cell (s.1 - 1, s.2)
            else PyVal.falseV) := by
  simp only [check_left, hs, PyVal.getX, PyVal.getY, Option.some_bind]
  cases hb : in_bounds st (s.1 - 1, s.2) <;>
  cases ht : decide (PyVal.cell (s.1 - 1, s.2) ∈ st.tracker) <;>
  cases hc : decide (PyVal.cell (s.1 - 1, s.2) ∈ st.dont_choose) <;>
    simp_all [legal]

theorem check_right_char (st : PlayerState) (e : Cell)
    (he : st.ship.«end» = PyVal.cell e) :
    check_right st =
      some (if legal st (e.1 + 1, e.2) = true then PyVal.cell (e.1 + 1, e.2)
            else PyVal.falseV) := by
  simp only [check_right, he, PyVal.getX, PyVal.getY, Option.some_bind]
  cases hb : in_bounds st (e.1 + 1, e.2) <;>
  cases ht : decide (PyVal.cell (e.1 + 1, e.2) ∈ st.tracker) <;>
  cases hc : decide (PyVal.cell (e.1 + 1, e.2) ∈ st.dont_choose) <;>
    simp_all [legal]

theorem check_above_char (st : PlayerState) (s : Cell)
    (hs : st.ship.start = PyVal.cell s) :
    check_above st =
      some (if legal st (s.1, s.2 - 1) = true then PyVal.cell (s.1, s.2 - 1)
            else PyVal.falseV) := by
  simp only [check_above, hs, PyVal.getX, PyVal.getY, Option.some_bind]
  cases hb : in_bounds st (s.1, s.2 - 1) <;>
  cases ht : decide (PyVal.cell (s.1, s.2 - 1) ∈ st.tracker) <;>
  cases hc : decide (PyVal.cell (s.1, s.2 - 1) ∈ st.dont_choose) <;>
    simp_all [legal]

theorem check_below_char (st : PlayerState) (e : Cell)
    (he : st.ship.«end» = PyVal.cell e) :
    check_below st =
      some (if legal st (e.1, e.2 + 1) = true then PyVal.cell (e.1, e.2 + 1)
            else PyVal.falseV) := by
  simp only [check_below, he, PyVal.getX, PyVal.getY, Option.some_bind]
  cases hb : in_bounds st (e.1, e.2 + 1) <;>
  cases ht : decide (PyVal.cell (e.1, e.2 + 1) ∈ st.tracker) <;>
  cases hc : decide (PyVal.cell (e.1, e.2 + 1) ∈ st.dont_choose) <;>
    simp_all [legal]

/-- Claim C6, amended: with direction horizontal and `start_found` false,
`select_target` returns the cell immediately left of `start` when that probe
is legal, and otherwise returns the cell immediately right of `end` provided
that probe is legal; with `start_found` true it returns the right probe when
legal; symmetric above/below rules hold for vertical direction.  (When both
probes are illegal the call returns the non-cell value `False`, which is what
forces the proviso; see the counterexample.) -/
theorem select_extends_pursuit
    (st : PlayerState) (s e : Cell)
    (ha : st.ship.active = true)
    (hs : st.ship.start = PyVal.cell s)
    (he : st.ship.«end» = PyVal.cell e) :
    (st.ship.direction = some ShipDir.h →
      (st.ship.start_found = false → legal st (s.1 - 1, s.2) = true →
        ∀ rs fuel i, (select_target st rs fuel i).map Prod.fst =
          some (PyVal.cell (s.1 - 1, s.2))) ∧
      (st.ship.start_found = false → legal st (s.1 - 1, s.2) = false →
        legal st (e.1 + 1, e.2) = true →
        ∀ rs fuel i, (select_target st rs fuel i).map Prod.fst =
          some (PyVal.cell (e.1 + 1, e.2))) ∧
      (st.ship.start_found = true → legal st (e.1 + 1, e.2) = true →
        ∀ rs fuel i, (select_target st rs fuel i).map Prod.fst =
          some (PyVal.cell (e.1 + 1, e.2)))) ∧
    (st.ship.direction = some ShipDir.v →
      (st.ship.start_found = false → legal st (s.1, s.2 - 1) = true →
        ∀ rs fuel i, (select_target st rs fuel i).map Prod.fst =
          some (PyVal.cell (s.1, s.2 - 1))) ∧
      (st.ship.start_found = false → legal st (s.1, s.2 - 1) = false →
        legal st (e.1, e.2 + 1) = true →
        ∀ rs fuel i, (select_target st rs fuel i).map Prod.fst =
          some (PyVal.cell (e.1, e.2 + 1))) ∧
      (st.ship.start_found = true → legal st (e.1, e.2 + 1) = true →
        ∀ rs fuel i, (select_target st rs fuel i).map Prod.fst =
          some (PyVal.cell (e.1, e.2 + 1)))) := by
  refine ⟨fun hdir => ⟨fun hsf hl rs fuel i => ?_, fun hsf hl hr rs fuel i => ?_,
      fun hsf hr rs fuel i => ?_⟩,
    fun hdir => ⟨fun hsf hl rs fuel i => ?_, fun hsf hl hr rs fuel i => ?_,
      fun hsf hr rs fuel i => ?_⟩⟩
  · simp [select_target, select_value, ha, hdir, hsf, check_left_char st s hs, hl]
  · simp [select_target, select_value, ha, hdir, hsf, check_left_char st s hs, hl,
      check_right_char st e he, hr]
  · simp [select_target, select_value, ha, hdir, hsf, check_right_char st e he, hr]
  · simp [select_target, select_value, ha, hdir, hsf, check_above_char st s hs, hl]
  · simp [select_target, select_value, ha, hdir, hsf, check_above_char st s hs, hl,
      check_below_char st e he, hr]
  · simp [select_target, select_value, ha, hdir, hsf, check_below_char st e he, hr]

/-- The state refuting claim C6 as stated: horizontal pursuit with
`start = end = (2,5)`, `start_found` false, where both `(1,5)` and `(3,5)`
are already attempted. -/
def stC6 : PlayerState :=
  { width := 10
    height := 10
    tracker := {PyVal.cell (1, 5), PyVal.cell (2, 5), PyVal.cell (3, 5)}
    dont_choose := ∅
    last_hit := PyVal.cell (2, 5)
    ship :=
      { active := true
        start := PyVal.cell (2, 5)
        «end» := PyVal.cell (2, 5)
        direction := some ShipDir.h
        length := 0
        hits := [PyVal.cell (2, 5)]
        start_found := false
        end_found := false } }

/-- Claim C6 as stated is false: in `stC6` the left probe `(1,5)` is
attempted, so the claim requires the return value `(3,5)`, but the code
returns the Python value `False` because `(3,5)` is attempted too. -/
theorem select_extends_pursuit_cex :
    legal stC6 (1, 5) = false ∧ legal stC6 (3, 5) = false ∧
    (select_target stC6 (rsOf 0 0) 1 0).map Prod.fst = some PyVal.falseV ∧
    (select_target stC6 (rsOf 0 0) 1 0).map Prod.fst ≠
      some (PyVal.cell (3, 5)) := by
  refine ⟨by decide, by decide, by decide, by decide⟩

/-- The states of claim C6's concrete scenarios: horizontal pursuit with
`start = end = (2,5)` where the left probe `(1,5)` is legal. -/
def stW6 : PlayerState :=
  { stC6 with tracker := {PyVal.cell (2, 5)} }

/-- As `stW6` but with `(1,5)` already attempted and `(3,5)` free. -/
def stW6b : PlayerState :=
  { stC6 with tracker := {PyVal.cell (1, 5), PyVal.cell (2, 5)} }

/-- Claim C6, concrete instances: with `start = end = (2,5)` the engine
returns `(1,5)` when that cell is legal, and `(3,5)` when `(1,5)` is
attempted but `(3,5)` is legal. -/
theorem select_extends_pursuit_witness :
    (select_target stW6 (rsOf 0 0) 1 0).map Prod.fst =
      some (PyVal.cell (1, 5)) ∧
    (select_target stW6b (rsOf 0 0) 1 0).map Prod.fst =
      some (PyVal.cell (3, 5)) := by
  constructor
  · exact ((select_extends_pursuit stW6 (2, 5) (2, 5) rfl rfl rfl).1 rfl).1
      rfl (by decide) (rsOf 0 0) 1 0
  · exact ((select_extends_pursuit stW6b (2, 5) (2, 5) rfl rfl rfl).1
      rfl).2.1 rfl (by decide) (by decide) (rsOf 0 0) 1 0

/-! ## Claim C8 -/

/-- Claim C8: with a pursuit active and direction unknown, `select_target`
examines the four orthogonal neighbours of `start` in the fixed order left,
up, right, down and returns the first legal one; the result does not depend
on the randomness source, the fuel, or the stream position. -/
theorem select_seeking_first_neighbor
    (st : PlayerState) (s : Cell) (d : Int × Int)
    (ha : st.ship.active = true)
    (hd : st.ship.direction = none)
    (hs : st.ship.start = PyVal.cell s)
    (hfind : ([(-1, 0), (0, -1), (1, 0), (0, 1)] : List (Int × Int)).find?
        (fun d => legal st (s.1 + d.1, s.2 + d.2)) = some d) :
    (∀ rs fuel i, (select_target st rs fuel i).map Prod.fst =
        some (PyVal.cell (s.1 + d.1, s.2 + d.2))) ∧
    (∀ rs rs2 fuel fuel2 i i2,
        select_target st rs fuel i = select_target st rs2 fuel2 i2) := by
  constructor
  · intro rs fuel i
    simp [select_target, select_value, ha, hd, choose_around_cell, hs, PyVal.getX,
      PyVal.getY, hfind]
  · intro rs rs2 fuel fuel2 i i2
    simp [select_target, select_value, ha, hd]

/-- The state of claim C8's concrete scenario: direction-unknown pursuit at
`(4,4)` with the left neighbour `(3,4)` attempted, so the second neighbour
in the order, `(4,3)` (up), is chosen. -/
def stW8 : PlayerState :=
  { width := 10
    height := 10
    tracker := {PyVal.cell (3, 4), PyVal.cell (4, 4)}
    dont_choose := ∅
    last_hit := PyVal.cell (4, 4)
    ship :=
      { active := true
        start := PyVal.cell (4, 4)
        «end» := PyVal.cell (4, 4)
        direction := none
        length := 0
        hits := [PyVal.cell (4, 4)]
        start_found := false
        end_found := false } }

/-- Claim C8, concrete instance: in `stW8` the left neighbour is attempted
and the up neighbour `(4,3)` is returned, deterministically. -/
theorem select_seeking_first_neighbor_witness :
    (select_target stW8 (rsOf 0 0) 1 0).map Prod.fst =
      some (PyVal.cell (4 + 0, 4 + (-1))) ∧
    select_target stW8 (rsOf 0 0) 1 0 = select_target stW8 (rsOf 7 3) 25 4 := by
  constructor
  · exact (select_seeking_first_neighbor stW8 (4, 4) (0, -1) rfl rfl rfl
      (by decide)).1 (rsOf 0 0) 1 0
  · exact (select_seeking_first_neighbor stW8 (4, 4) (0, -1) rfl rfl rfl
      (by decide)).2 (rsOf 0 0) (rsOf 7 3) 1 25 0 4

/-! ## Claim C1 -/

/-- The state of claim C1's scenario: horizontal pursuit with
`start = (2,5)`, `end = (3,5)`, `start_found` false, and the start-side
probe `(1,5)` already attempted. -/
def stC1 : PlayerState :=
  { width := 10
    height := 10
    tracker := {PyVal.cell (1, 5), PyVal.cell (2, 5), PyVal.cell (3, 5)}
    dont_choose := ∅
    last_hit := PyVal.cell (2, 5)
    ship :=
      { active := true
        start := PyVal.cell (2, 5)
        «end» := PyVal.cell (3, 5)
        direction := some ShipDir.h
        length := 0
        hits := [PyVal.cell (3, 5), PyVal.cell (2, 5)]
        start_found := false
        end_found := false } }

/-- Claim C1 fails on the code: in `stC1` the start-side probe `(1,5)` is
already attempted, `select_target` falls through to the end side and returns
`(4,5)`, yet `start_found` in the returned state is still `false` — the
source line `self.current_ship_info['start_found'] == True` compares instead
of assigning, so the start extremity is re-probed on later turns. -/
theorem select_start_found_not_persisted :
    legal stC1 (1, 5) = false ∧
    (select_target stC1 (rsOf 0 0) 1 0).map
        (fun p => (p.1, p.2.ship.start_found)) =
      some (PyVal.cell (4, 5), false) := by
  refine ⟨by decide, by decide⟩

/-! ## Claim C3 -/

/-- The trace refuting claim C3 on the code: misses at `(2,1)` and `(1,2)`,
a hit at `(1,1)`, then a turn in which all four neighbours of `(1,1)` are
out of bounds or attempted, so `select_target` returns Python `None`, which
is recorded into the tracker. -/
def trC3 : List Turn :=
  [⟨rsOf 1 0, 1, false, false⟩, ⟨rsOf 0 1, 1, false, false⟩,
   ⟨rsOf 0 0, 1, true, false⟩, ⟨rsOf 0 0, 1, false, false⟩]

/-- Claim C3 fails on the code: after the four turns of `trC3` the next
`select_target` call returns the Python value `None`, which is already a
member of the attempted set at the moment it is chosen (it was recorded by
the previous turn's identical degenerate choice). -/
theorem select_repeats_tracked_value :
    (run_game (initial_state 10 10) trC3).bind
        (fun s => (select_target s (rsOf 0 0) 1 0).map
          (fun p => (p.1, decide (p.1 ∈ s.tracker)))) =
      some (PyVal.noneV, true) := by
  decide

/-! ## Claim C4 -/

/-- The trace refuting claim C4 on the code: misses at `(1,5)` and `(4,5)`,
hits at `(2,5)`, a miss at `(2,4)`, and a hit at `(3,5)`, leaving a
horizontal pursuit `start = (2,5)`, `end = (3,5)` whose left and right
probes are both already attempted. -/
def trC4 : List Turn :=
  [⟨rsOf 0 4, 1, false, false⟩, ⟨rsOf 3 4, 1, false, false⟩,
   ⟨rsOf 1 4, 1, true, false⟩, ⟨rsOf 0 0, 1, false, false⟩,
   ⟨rsOf 0 0, 1, true, false⟩]

/-- Claim C4 fails on the code: after the five turns of `trC4` the game is
not finished (the in-bounds cell `(7,7)` is neither attempted nor excluded),
yet `select_target` returns the Python value `False` — not a grid cell. -/
theorem select_returns_noncell :
    (run_game (initial_state 10 10) trC4).bind
        (fun s => (select_target s (rsOf 0 0) 1 0).map (fun p => p.1)) =
      some PyVal.falseV ∧
    (run_game (initial_state 10 10) trC4).map (fun s => legal s (7, 7)) =
      some true := by
  refine ⟨by decide, by decide⟩

/-! ## Claim C7 -/

/-- The pursuit invariant of the spec: while the direction is unknown the
extremities are equal, and once the direction is known `start` is at most
`end` along the pursuit's axis. -/
def pursuitInv (si : ShipInfo) : Prop :=
  si.active = true →
    (si.direction = none → si.start = si.«end») ∧
    (∀ s e : Cell, si.start = PyVal.cell s → si.«end» = PyVal.cell e →
      (si.direction = some ShipDir.v → s.2 ≤ e.2) ∧
      (si.direction = some ShipDir.h → s.1 ≤ e.1))

theorem pursuitInv_of_cells (si2 : ShipInfo) (s e : Cell)
    (hs : si2.start = PyVal.cell s) (he : si2.«end» = PyVal.cell e)
    (hv : si2.active = true → si2.direction = some ShipDir.v → s.2 ≤ e.2)
    (hh : si2.active = true → si2.direction = some ShipDir.h → s.1 ≤ e.1)
    (hd : si2.direction = none → s = e) :
    pursuitInv si2 := by
  intro hact
  constructor
  · intro hdN
    rw [hs, he, hd hdN]
  · intro s2 e2 hs2 he2
    have h1 : s = s2 := PyVal.cell.inj (hs.symm.trans hs2)
    have h2 : e = e2 := PyVal.cell.inj (he.symm.trans he2)
    subst h1
    subst h2
    exact ⟨hv hact, hh hact⟩

theorem pursuitInv_of_start_cell (si2 : ShipInfo) (s : Cell)
    (hs : si2.start = PyVal.cell s)
    (hdir : si2.direction ≠ none)
    (hv : si2.active = true → ∀ e2 : Cell, si2.«end» = PyVal.cell e2 →
        si2.direction = some ShipDir.v → s.2 ≤ e2.2)
    (hh : si2.active = true → ∀ e2 : Cell, si2.«end» = PyVal.cell e2 →
        si2.direction = some ShipDir.h → s.1 ≤ e2.1) :
    pursuitInv si2 := by
  intro hact
  constructor
  · intro hdN
    exact absurd hdN hdir
  · intro s2 e2 hs2 he2
    have h1 : s = s2 := PyVal.cell.inj (hs.symm.trans hs2)
    subst h1
    exact ⟨hv hact e2 he2, hh hact e2 he2⟩

theorem pursuitInv_of_end_cell (si2 : ShipInfo) (e : Cell)
    (he : si2.«end» = PyVal.cell e)
    (hdir : si2.direction ≠ none)
    (hv : si2.active = true → ∀ s2 : Cell, si2.start = PyVal.cell s2 →
        si2.direction = some ShipDir.v → s2.2 ≤ e.2)
    (hh : si2.active = true → ∀ s2 : Cell, si2.start = PyVal.cell s2 →
        si2.direction = some ShipDir.h → s2.1 ≤ e.1) :
    pursuitInv si2 := by
  intro hact
  constructor
  · intro hdN
    exact absurd hdN hdir
  · intro s2 e2 hs2 he2
    have h1 : e = e2 := PyVal.cell.inj (he.symm.trans he2)
    subst h1
    exact ⟨hv hact s2 hs2, hh hact s2 hs2⟩

theorem pursuitInv_congr (si si2 : ShipInfo)
    (hA : si2.active = si.active) (hS : si2.start = si.start)
    (hE : si2.«end» = si.«end») (hD : si2.direction = si.direction)
    (hinv : pursuitInv si) : pursuitInv si2 := by
  intro hact
  rw [hA] at hact
  obtain ⟨h1, h2⟩ := hinv hact
  constructor
  · intro hd
    rw [hS, hE]
    exact h1 (hD.symm.trans hd)
  · intro s e hs he
    rw [hS] at hs
    rw [hE] at he
    obtain ⟨hv, hh⟩ := h2 s e hs he
    exact ⟨fun hd => hv (hD.symm.trans hd), fun hd => hh (hD.symm.trans hd)⟩

theorem initialise_ship_inv (si : ShipInfo) (cv : PyVal) :
    pursuitInv (initialise_ship si cv) := by
  intro hact
  constructor
  · intro hd
    rfl
  · intro s e hs he
    have h1 : cv = PyVal.cell s := hs
    have h2 : cv = PyVal.cell e := he
    have hse : s = e := PyVal.cell.inj (h1.symm.trans h2)
    subst hse
    exact ⟨fun hd => le_refl _, fun hd => le_refl _⟩

theorem reset_current_ship_inv : pursuitInv reset_current_ship := by
  intro hact
  simp [reset_current_ship] at hact

theorem found_end_fields (si si2 : ShipInfo) (cv : PyVal)
    (h : found_end si cv = some si2) :
    si2.active = si.active ∧ si2.start = si.start ∧
    si2.«end» = si.«end» ∧ si2.direction = si.direction := by
  unfold found_end at h
  repeat' split at h
  all_goals simp_all
  all_goals subst h
  all_goals exact ⟨rfl, rfl, rfl, rfl⟩

theorem update_current_ship_inv (si si2 : ShipInfo) (cv : PyVal)
    (hinv : pursuitInv si)
    (hshare : si.direction = none → ∀ s c : Cell, si.start = PyVal.cell s →
        cv = PyVal.cell c → c.1 = s.1 ∨ c.2 = s.2)
    (h : update_current_ship si cv = some si2) : pursuitInv si2 := by
  cases hdir : si.direction with
  | some dv =>
    cases dv
    case v =>
      cases cv with
      | noneV => simp [update_current_ship, hdir] at h
      | falseV => simp [update_current_ship, hdir] at h
      | cell c =>
        cases hst : si.start with
        | noneV => simp [update_current_ship, hdir, hst] at h
        | falseV => simp [update_current_ship, hdir, hst] at h
        | cell s =>
          by_cases hlt : c.2 < s.2
          · simp [update_current_ship, hdir, hst, hlt] at h
            subst h
            apply pursuitInv_of_start_cell _ c rfl
            · intro h0
              exact absurd h0 (by simp)
            · intro hact e2 he2 _
              have hactS : si.active = true := hact
              have he2S : si.«end» = PyVal.cell e2 := he2
              have hse := ((hinv hactS).2 s e2 hst he2S).1 hdir
              omega
            · intro hact e2 he2 hdh
              exact absurd hdh (by simp)
          · simp [update_current_ship, hdir, hst, hlt] at h
            subst h
            apply pursuitInv_of_end_cell _ c rfl
            · intro h0
              exact absurd h0 (by simp)
            · intro hact s2 hs2 _
              have h5 : s = s2 := PyVal.cell.inj hs2
              subst h5
              omega
            · intro hact s2 hs2 hdh
              exact absurd hdh (by simp)
    case h =>
      cases cv with
      | noneV => simp [update_current_ship, hdir] at h
      | falseV => simp [update_current_ship, hdir] at h
      | cell c =>
        cases hst : si.start with
        | noneV => simp [update_current_ship, hdir, hst] at h
        | falseV => simp [update_current_ship, hdir, hst] at h
        | cell s =>
          by_cases hlt : c.1 < s.1
          · simp [update_current_ship, hdir, hst, hlt] at h
            subst h
            apply pursuitInv_of_start_cell _ c rfl
            · intro h0
              exact absurd h0 (by simp)
            · intro hact e2 he2 hdv
              exact absurd hdv (by simp)
            · intro hact e2 he2 _
              have hactS : si.active = true := hact
              have he2S : si.«end» = PyVal.cell e2 := he2
              have hse := ((hinv hactS).2 s e2 hst he2S).2 hdir
              omega
          · simp [update_current_ship, hdir, hst, hlt] at h
            subst h
            apply pursuitInv_of_end_cell _ c rfl
            · intro h0
              exact absurd h0 (by simp)
            · intro hact s2 hs2 hdv
              exact absurd hdv (by simp)
            · intro hact s2 hs2 _
              have h5 : s = s2 := PyVal.cell.inj hs2
              subst h5
              omega
  | none =>
    by_cases hl1 : (si.hits ++ [cv]).length = 1
    · have he0 : si.hits = [] := by
        cases hhits : si.hits with
        | nil => rfl
        | cons a l =>
            rw [hhits] at hl1
            simp [List.length_append] at hl1
      cases cv with
      | noneV => simp [update_current_ship, hdir, he0] at h
      | falseV => simp [update_current_ship, hdir, he0] at h
      | cell c =>
        simp [update_current_ship, hdir, he0] at h
        subst h
        apply pursuitInv_of_cells _ c c rfl rfl
        · intro _ _
          exact le_refl _
        · intro _ _
          exact le_refl _
        · intro _
          rfl
    · have hne : si.hits ≠ [] := fun h0 => hl1 (by simp [h0])
      cases cv with
      | noneV => simp [update_current_ship, hdir, hne] at h
      | falseV => simp [update_current_ship, hdir, hne] at h
      | cell c =>
        cases hst : si.start with
        | noneV => simp [update_current_ship, hdir, hne, hst] at h
        | falseV => simp [update_current_ship, hdir, hne, hst] at h
        | cell s =>
          by_cases hcx : c.1 = s.1
          · by_cases hlt : c.2 < s.2
            · simp [update_current_ship, hdir, hne, hst, hcx, hlt] at h
              subst h
              apply pursuitInv_of_start_cell _ c rfl
              · intro h0
                exact absurd h0 (by simp)
              · intro hact e2 he2 _
                have hactS : si.active = true := hact
                have he2S : si.«end» = PyVal.cell e2 := he2
                have hse : si.start = si.«end» := (hinv hactS).1 hdir
                have h5 : s = e2 :=
                  PyVal.cell.inj ((hst.symm.trans hse).trans he2S)
                subst h5
                omega
              · intro hact e2 he2 hdh
                exact absurd hdh (by simp)
            · simp [update_current_ship, hdir, hne, hst, hcx, hlt] at h
              subst h
              apply pursuitInv_of_end_cell _ c rfl
              · intro h0
                exact absurd h0 (by simp)
              · intro hact s2 hs2 _
                have h5 : s = s2 := PyVal.cell.inj hs2
                subst h5
                omega
              · intro hact s2 hs2 hdh
                exact absurd hdh (by simp)
          · by_cases hcy : c.2 = s.2
            · by_cases hlt : c.1 < s.1
              · simp [update_current_ship, hdir, hne, hst, hcx, hcy, hlt] at h
                subst h
                apply pursuitInv_of_start_cell _ c rfl
                · intro h0
                  exact absurd h0 (by simp)
                · intro hact e2 he2 hdv
                  exact absurd hdv (by simp)
                · intro hact e2 he2 _
                  have hactS : si.active = true := hact
                  have he2S : si.«end» = PyVal.cell e2 := he2
                  have hse : si.start = si.«end» := (hinv hactS).1 hdir
                  have h5 : s = e2 :=
                    PyVal.cell.inj ((hst.symm.trans hse).trans he2S)
                  subst h5
                  omega
              · simp [update_current_ship, hdir, hne, hst, hcx, hcy, hlt] at h
                subst h
                apply pursuitInv_of_end_cell _ c rfl
                · intro h0
                  exact absurd h0 (by simp)
                · intro hact s2 hs2 hdv
                  exact absurd hdv (by simp)
                · intro hact s2 hs2 _
                  have h5 : s = s2 := PyVal.cell.inj hs2
                  subst h5
                  omega
            · rcases hshare hdir s c hst rfl with h5 | h5
              · exact absurd h5 hcx
              · exact absurd h5 hcy

theorem select_target_state (st : PlayerState) (rs : Nat → Nat × Nat)
    (fuel i : Nat) (v : PyVal) (st1 : PlayerState)
    (h : select_target st rs fuel i = some (v, st1)) :
    st1 = { st with tracker := insert v st.tracker, last_hit := v } := by
  cases hv : select_value st rs fuel i with
  | none => simp [select_target, hv] at h
  | some cv =>
      simp [select_target, hv] at h
      obtain ⟨rfl, h2⟩ := h
      exact h2.symm

theorem select_value_of_target (st : PlayerState) (rs : Nat → Nat × Nat)
    (fuel i : Nat) (v : PyVal) (st1 : PlayerState)
    (h : select_target st rs fuel i = some (v, st1)) :
    select_value st rs fuel i = some v := by
  cases hv : select_value st rs fuel i with
  | none => simp [select_target, hv] at h
  | some cv =>
      simp [select_target, hv] at h
      rw [h.1]

theorem select_value_seek (st : PlayerState) (rs : Nat → Nat × Nat)
    (fuel i : Nat) (ha : st.ship.active = true)
    (hd : st.ship.direction = none) :
    select_value st rs fuel i = choose_around_cell st := by
  simp [select_value, ha, hd]

theorem choose_around_cell_share (st : PlayerState) (c s : Cell)
    (h : choose_around_cell st = some (PyVal.cell c))
    (hst : st.ship.start = PyVal.cell s) :
    c.1 = s.1 ∨ c.2 = s.2 := by
  unfold choose_around_cell at h
  rw [hst] at h
  simp only [] at h
  cases hfind : ([(-1, 0), (0, -1), (1, 0), (0, 1)] : List (Int × Int)).find?
      (fun d => legal st (s.1 + d.1, s.2 + d.2)) with
  | none => rw [hfind] at h; simp at h
  | some d =>
      rw [hfind] at h
      have hc : (s.1 + d.1, s.2 + d.2) = c := PyVal.cell.inj (Option.some.inj h)
      have hmem := List.mem_of_find?_eq_some hfind
      subst hc
      simp only [List.mem_cons, List.not_mem_nil, or_false] at hmem
      rcases hmem with h5 | h5 | h5 | h5 <;> subst h5 <;> simp

theorem run_turn_inv (st st2 : PlayerState) (t : Turn)
    (hinv : pursuitInv st.ship) (h : run_turn st t = some st2) :
    pursuitInv st2.ship := by
  cases hsel : select_target st t.rs t.fuel 0 with
  | none => simp [run_turn, hsel] at h
  | some p =>
      obtain ⟨v, st1⟩ := p
      simp only [run_turn, hsel] at h
      have hst1 := select_target_state st t.rs t.fuel 0 v st1 hsel
      subst hst1
      cases hsu : t.has_sunk
      case true =>
        rw [hsu] at h
        cases hupd : update_current_ship st.ship v with
        | none => simp [receive_result, hupd] at h
        | some si =>
            cases hdont : dont_hit_nearby_cells si st.dont_choose with
            | none => simp [receive_result, hupd, hdont] at h
            | some dont =>
                simp [receive_result, hupd, hdont] at h
                subst h
                exact reset_current_ship_inv
      case false =>
        rw [hsu] at h
        cases hih : t.is_hit
        case true =>
          rw [hih] at h
          by_cases hact : st.ship.active = false
          · simp [receive_result, hact] at h
            subst h
            exact initialise_ship_inv _ _
          · have hactT : st.ship.active = true := by
              cases hb : st.ship.active
              · exact absurd hb hact
              · rfl
            cases hupd : update_current_ship st.ship v with
            | none => simp [receive_result, hact, hupd] at h
            | some si =>
                simp [receive_result, hact, hupd] at h
                subst h
                apply update_current_ship_inv st.ship si v hinv ?_ hupd
                intro hdnone s c hstS hcv
                subst hcv
                have hca : choose_around_cell st = some (PyVal.cell c) :=
                  (select_value_seek st t.rs t.fuel 0 hactT hdnone).symm.trans
                    (select_value_of_target st t.rs t.fuel 0 (PyVal.cell c) _
                      hsel)
                exact choose_around_cell_share st c s hca hstS
        case false =>
          rw [hih] at h
          by_cases hact : st.ship.active = true
          · by_cases hdirN : st.ship.direction = none
            · simp [receive_result, hact, hdirN] at h
              subst h
              exact hinv
            · cases hfe : found_end st.ship v with
              | none => simp [receive_result, hact, hdirN, hfe] at h
              | some si =>
                  simp [receive_result, hact, hdirN, hfe] at h
                  subst h
                  obtain ⟨hA, hS, hE, hD⟩ := found_end_fields st.ship si v hfe
                  exact pursuitInv_congr st.ship si hA hS hE hD hinv
          · simp [receive_result, hact] at h
            subst h
            exact hinv

theorem run_game_inv (tr : List Turn) (st st2 : PlayerState)
    (hinv : pursuitInv st.ship) (h : run_game st tr = some st2) :
    pursuitInv st2.ship := by
  induction tr generalizing st with
  | nil =>
      simp [run_game] at h
      subst h
      exact hinv
  | cons t ts ih =>
      cases hrt : run_turn st t with
      | none => simp [run_game, hrt] at h
      | some st1 =>
          simp only [run_game, hrt] at h
          exact ih st1 (run_turn_inv st st1 t hinv hrt) h

/-- Claim C7: along every alternating `select_target` / `receive_result`
sequence from the initial state (the harness reports each result for the
cell last returned by `select_target`, which `receive_result` reads from
`last_hit`), the reached state's pursuit keeps `start = end` while the
direction is unknown and keeps start at most end along the pursuit's axis
once the direction is known. -/
theorem pursuit_extremities_ordered (w h : Int) (tr : List Turn)
    (st2 : PlayerState)
    (hrun : run_game (initial_state w h) tr = some st2) :
    pursuitInv st2.ship :=
  run_game_inv tr (initial_state w h) st2
    (fun hact => absurd hact (by simp [initial_state])) hrun

/-- A turn whose random shot lands on `(1,1)` and is reported as a
non-sinking hit. -/
def turnW7 : Turn := ⟨rsOf 0 0, 1, true, false⟩

/-- The state reached after `turnW7` from the initial state: an active
pursuit seeded at `(1,1)`. -/
def stW7 : PlayerState :=
  { width := 10
    height := 10
    tracker := {PyVal.cell (1, 1)}
    dont_choose := ∅
    last_hit := PyVal.cell (1, 1)
    ship :=
      { active := true
        start := PyVal.cell (1, 1)
        «end» := PyVal.cell (1, 1)
        direction := none
        length := 0
        hits := [PyVal.cell (1, 1)]
        start_found := false
        end_found := false } }

/-- Claim C7, concrete instance: the one-turn trace `turnW7` reaches `stW7`
and the pursuit invariant holds there. -/
theorem pursuit_extremities_ordered_witness :
    run_game (initial_state 10 10) [turnW7] = some stW7 ∧
    pursuitInv stW7.ship :=
  ⟨by decide, pursuit_extremities_ordered 10 10 [turnW7] stW7 (by decide)⟩
